import Mathlib

/-!
Shallow embedding of the listing view of the GitHub users dashboard
(`src/app/page.tsx`): the component state, the pagination controller
(`fetchUsers`), the search controller (`searchUsers`, `clearSearch`,
the debounce effect), the viewport trigger (`lastUserRef`), retry, and
the top-level render dispatch.
-/

/-- The `User` record of `page.tsx` (lines 7-12). -/
structure User where
  id : Nat
  login : String
  avatar_url : String
  html_url : String
deriving DecidableEq

/-- The component state: one field per `useState` hook (lines 15-24). -/
structure AppState where
  users : List User
  filteredUsers : List User
  loading : Bool
  hasMore : Bool
  page : Nat
  error : Option String
  searchQuery : String
  isSearching : Bool
  searchResults : List User
  isInitialized : Bool
deriving DecidableEq

/-- Initial hook values (lines 15-24). -/
def initialState : AppState :=
  { users := [], filteredUsers := [], loading := true, hasMore := true,
    page := 1, error := none, searchQuery := "", isSearching := false,
    searchResults := [], isInitialized := false }

/-- Models the JavaScript emptiness test on a trimmed query
(truthiness of `query.trim()`): true iff every character of the string
is whitespace. -/
def isBlank (q : String) : Bool := q.data.all Char.isWhitespace

/-- Synchronous prefix of `fetchUsers` before the network await
(lines 29-32): raise the loading flag for page 1 only, clear the
error. -/
def fetchStart (s : AppState) (pageNum : Nat) : AppState :=
  { s with loading := if pageNum = 1 then true else s.loading, error := none }

/-- Outcome of a page request: a parsed JSON array on success, or the
message stored by the catch block (non-ok status or transport error,
lines 38-40 and 67-68). -/
inductive FetchOutcome where
  | ok (data : List User)
  | fail (msg : String)
deriving DecidableEq

/-- Deduplicating merge of lines 54-63: drop the new page entries whose
id is already present, then append the remainder. -/
def mergePage (prevUsers data : List User) : List User :=
  let existingIds := prevUsers.map User.id
  let uniqueNewUsers := data.filter (fun u => !(existingIds.contains u.id))
  prevUsers ++ uniqueNewUsers

/-- Resolution of `fetchUsers pageNum` (lines 38-71): empty data marks
exhaustion and returns early, page 1 replaces the listing and marks
initialization, later pages merge and both set the page number; the
catch block records the message; the finally block clears loading. -/
def fetchResolve (s : AppState) (pageNum : Nat) (out : FetchOutcome) : AppState :=
  match out with
  | .ok data =>
      if data.length = 0 then
        { s with hasMore := false, loading := false }
      else if pageNum = 1 then
        { s with users := data, filteredUsers := data, isInitialized := true,
                 page := pageNum, loading := false }
      else
        let newUsers := mergePage s.users data
        { s with users := newUsers, filteredUsers := newUsers,
                 page := pageNum, loading := false }
  | .fail msg =>
      { s with error := some msg, loading := false }

/-- Outcome of a search request: the optional `items` field of the
response on success, or the caught message on failure. -/
inductive SearchOutcome where
  | ok (items : Option (List User))
  | fail (msg : String)
deriving DecidableEq

/-- `data.items || []` (line 99): an absent items field is an empty
result, not an error. -/
def getSearchItems (items : Option (List User)) : List User := items.getD []

/-- Synchronous prefix of `searchUsers` past the non-blank guard
(lines 84-85). -/
def searchStart (s : AppState) : AppState :=
  { s with isSearching := true, error := none }

/-- Resolution of `searchUsers query` (lines 98-111); `query` is the
captured argument of the call, so the catch-block fallback test
re-reads the captured value, not the live input state. -/
def searchResolve (s : AppState) (query : String) (out : SearchOutcome) : AppState :=
  match out with
  | .ok items =>
      { s with searchResults := getSearchItems items,
               filteredUsers := getSearchItems items, isSearching := false }
  | .fail msg =>
      let s1 := { s with error := some msg, searchResults := [] }
      let s2 := if isBlank query then { s1 with filteredUsers := s1.users } else s1
      { s2 with isSearching := false }

/-- Entry of `searchUsers` (lines 74-92): a blank query clears search
mode and issues nothing (lines 76-81); otherwise the request is
issued. The second component lists the search requests issued. -/
def searchUsersCall (s : AppState) (query : String) : AppState × List String :=
  if isBlank query then
    ({ s with isSearching := false, searchResults := [], filteredUsers := s.users }, [])
  else
    (searchStart s, [query])

/-- `clearSearch` (lines 159-165). -/
def clearSearch (s : AppState) : AppState :=
  { s with searchQuery := "", isSearching := false, searchResults := [],
           filteredUsers := s.users, error := none }

/-- `retryFetch` (lines 154-157): clear the error and call
`fetchUsers 1`; the second component lists the issued page numbers. -/
def retryFetch (s : AppState) : AppState × List Nat :=
  (fetchStart { s with error := none } 1, [1])

/-- The viewport trigger `lastUserRef` (lines 137-152), with arming and
firing compressed into one guarded action: armed only when the loading
flag is clear and the query is blank (line 139), fires only when the
sentinel is visible and `hasMore` holds (line 144); it then calls
`fetchUsers (page + 1)`. -/
def lastUserTrigger (s : AppState) (visible : Bool) : AppState × List Nat :=
  if s.loading || !(isBlank s.searchQuery) then (s, [])
  else if visible && s.hasMore then (fetchStart s (s.page + 1), [s.page + 1])
  else (s, [])

/-- Body of the debounce timer (lines 124-132) for captured query
`q`: a non-blank query calls `searchUsers q`, a blank one clears
search mode in place. -/
def debounceBody (s : AppState) (q : String) : AppState × List String :=
  if !(isBlank q) then searchUsersCall s q
  else ({ s with isSearching := false, searchResults := [], filteredUsers := s.users }, [])

/-- One input change (lines 124 and 134): `clearTimeout` of the
pending timer, then `setTimeout` of a new one capturing the new
query. -/
def scheduleEdit (pending : Option String) (q : String) : Option String :=
  some q

/-- The timer left pending after a burst of edits inside one debounce
window: every edit replaces the pending timer. -/
def runBurst (edits : List String) : Option String :=
  edits.foldl scheduleEdit none

/-- Search requests issued when the surviving timer of a burst
fires. -/
def burstRequests (s : AppState) (edits : List String) : List String :=
  match runBurst edits with
  | none => []
  | some q => (debounceBody s q).2

/-- The events that drive the listing view. -/
inductive Event where
  | observerFire (visible : Bool)
  | retry
  | initialLoad
  | pageResolve (pageNum : Nat) (out : FetchOutcome)
  | setQuery (q : String)
  | debounceTimer
  | searchResolveEv (query : String) (out : SearchOutcome)
  | clearSearchEv
deriving DecidableEq

/-- Result of one event: the next state together with the page-load
and search requests the event issues. -/
structure StepResult where
  state : AppState
  pageReqs : List Nat
  searchReqs : List String
deriving DecidableEq

/-- One event of the listing view's state machine. -/
def step (s : AppState) (e : Event) : StepResult :=
  match e with
  | .observerFire visible =>
      { state := (lastUserTrigger s visible).1,
        pageReqs := (lastUserTrigger s visible).2, searchReqs := [] }
  | .retry =>
      { state := (retryFetch s).1, pageReqs := (retryFetch s).2, searchReqs := [] }
  | .initialLoad =>
      { state := fetchStart s 1, pageReqs := [1], searchReqs := [] }
  | .pageResolve n out =>
      { state := fetchResolve s n out, pageReqs := [], searchReqs := [] }
  | .setQuery q =>
      { state := { s with searchQuery := q }, pageReqs := [], searchReqs := [] }
  | .debounceTimer =>
      { state := (debounceBody s s.searchQuery).1, pageReqs := [],
        searchReqs := (debounceBody s s.searchQuery).2 }
  | .searchResolveEv q out =>
      { state := searchResolve s q out, pageReqs := [], searchReqs := [] }
  | .clearSearchEv =>
      { state := clearSearch s, pageReqs := [], searchReqs := [] }

/-- Run a trace of events, collecting the issued page-load
requests. -/
def runTrace (s : AppState) : List Event → AppState × List Nat
  | [] => (s, [])
  | e :: es =>
      ((runTrace (step s e).state es).1,
        (step s e).pageReqs ++ (runTrace (step s e).state es).2)

def finalState (s : AppState) (es : List Event) : AppState := (runTrace s es).1

def issuedPageReqs (s : AppState) (es : List Event) : List Nat := (runTrace s es).2

def isPageResolveEv : Event → Bool
  | .pageResolve _ _ => true
  | _ => false

/-- Page-load requests still outstanding after running `es` from `s`:
issued ones minus resolved ones. -/
def inFlightPageLoads (s : AppState) (es : List Event) : Nat :=
  (issuedPageReqs s es).length - (es.filter isPageResolveEv).length

/-- Whether an event is the resolution of page 1 with a non-empty
result: the only event that sets the initialized flag (line 52). -/
def isPage1NonemptySuccess : Event → Bool
  | .pageResolve 1 (.ok data) => !data.isEmpty
  | _ => false

/-- Abstraction of the render tree: the pre-initialization loading
screen (lines 168-198), or the main view with the error block with the
retry button (line 384: `error` non-null) and the end-of-results
notice (line 586: `hasMore` false, listing non-empty, query empty). -/
inductive View where
  | loadingScreen
  | mainView (showError : Bool) (showEndNotice : Bool)
deriving DecidableEq

def render (s : AppState) : View :=
  if !s.isInitialized then View.loadingScreen
  else View.mainView s.error.isSome
    (!s.hasMore && !s.users.isEmpty && (s.searchQuery == ""))

/-- An intermediate search action: a request start or a resolution. -/
inductive SearchOp where
  | start
  | resolve (q : String) (out : SearchOutcome)

def applySearchOp (s : AppState) (op : SearchOp) : AppState :=
  match op with
  | .start => searchStart s
  | .resolve q out => searchResolve s q out

def applySearchOps (s : AppState) (ops : List SearchOp) : AppState :=
  ops.foldl applySearchOp s

def mkUser (n : Nat) : User :=
  { id := n, login := "", avatar_url := "", html_url := "" }

/-- Page 1 of the overlap scenario: identifiers 1-30. -/
def scenarioPage1 : List User := (List.range 30).map (fun i => mkUser (i + 1))

/-- Page 2 of the overlap scenario: identifiers 25-54. -/
def scenarioPage2 : List User := (List.range 30).map (fun i => mkUser (i + 25))

/-- Load `pages` in order as pages `n`, `n + 1`, ... through
`fetchUsers`. -/
def loadPagesFrom : AppState → Nat → List (List User) → AppState
  | s, _, [] => s
  | s, n, d :: rest =>
      loadPagesFrom (fetchResolve (fetchStart s n) n (.ok d)) (n + 1) rest

/-- Accumulated state after successfully loading `pages` as pages
1, 2, ... from the mount state. -/
def loadPages (pages : List (List User)) : AppState :=
  loadPagesFrom initialState 1 pages

/-- State after a successful initial page-1 load of one user. -/
def exampleLoadedState : AppState :=
  finalState initialState [.initialLoad, .pageResolve 1 (.ok [mkUser 1])]

def userA : User := mkUser 100

def userB : User := mkUser 200

/-- Two searches issued (first one stale), the newer one resolved. -/
def staleS2 : AppState :=
  searchResolve (searchStart (searchStart exampleLoadedState)) "b" (.ok (some [userB]))

/-- ... then the stale older search resolves. -/
def staleS3 : AppState :=
  searchResolve staleS2 "a" (.ok (some [userA]))

def torvaldsUser : User :=
  { id := 1024025, login := "torvalds", avatar_url := "", html_url := "" }

/-- The deduplicating merge preserves distinctness of identifiers. -/
theorem mergePage_nodup (prevUsers data : List User)
    (hp : (prevUsers.map User.id).Nodup) (hd : (data.map User.id).Nodup) :
    ((mergePage prevUsers data).map User.id).Nodup := by
  unfold mergePage
  simp only [List.map_append]
  refine List.Nodup.append hp (hd.sublist ((List.filter_sublist _).map _)) ?_
  intro a ha hb
  simp only [List.mem_map] at hb
  obtain ⟨u, hu, rfl⟩ := hb
  have hpred := List.of_mem_filter hu
  simp only [List.contains, List.elem_eq_mem, Bool.not_eq_true', decide_eq_false_iff_not]
    at hpred
  exact hpred ha

/-- Loading any further pages preserves distinctness of the listing's
identifiers, provided each page's own identifiers are distinct. -/
theorem loadPagesFrom_nodup (pages : List (List User)) :
    ∀ (s : AppState) (n : Nat), (∀ p ∈ pages, (p.map User.id).Nodup) →
      (s.users.map User.id).Nodup →
      ((loadPagesFrom s n pages).users.map User.id).Nodup := by
  induction pages with
  | nil => intro s n _ hs; simpa [loadPagesFrom] using hs
  | cons d rest ih =>
      intro s n hall hs
      simp only [loadPagesFrom]
      refine ih _ _ (fun p hp => hall p (List.mem_cons_of_mem _ hp)) ?_
      have hd : (d.map User.id).Nodup := hall d (List.mem_cons_self _ _)
      by_cases hlen : d.length = 0
      · simp [fetchResolve, fetchStart, hlen, hs]
      · by_cases hone : n = 1
        · simp [fetchResolve, fetchStart, hlen, hone, hd]
        · simpa [fetchResolve, fetchStart, hlen, hone]
            using mergePage_nodup s.users d hs hd

/-- Claim C1: for every sequence of successful page loads (page 1
replacing the listing, later pages filtered against already-present
identifiers and appended), the accumulated listing never contains two
entries with the same identifier — here under the data model's
guarantee that each fetched page's identifiers are pairwise distinct;
in particular, for page 1 with identifiers 1-30 and page 2 with
identifiers 25-54, the accumulated listing is identifiers 1-54 in
order, 54 total, no duplicates. -/
theorem C1_listing_no_duplicate_ids :
    (∀ pages : List (List User), (∀ p ∈ pages, (p.map User.id).Nodup) →
      ((loadPages pages).users.map User.id).Nodup) ∧
    (loadPages [scenarioPage1, scenarioPage2]).users.map User.id
      = (List.range 54).map (fun i => i + 1) := by
  constructor
  · intro pages h
    exact loadPagesFrom_nodup pages initialState 1 h (by simp [initialState])
  · decide

/-- Witness for C1 at the overlap scenario: pages with identifiers
1-30 and 25-54 yield a duplicate-free listing. -/
theorem C1_listing_no_duplicate_ids_witness :
    ((loadPages [scenarioPage1, scenarioPage2]).users.map User.id).Nodup :=
  C1_listing_no_duplicate_ids.1 [scenarioPage1, scenarioPage2] (by decide)

/-- Claim C2 (evaluated at the failing input): search A is issued,
then search B; B resolves first and displays B's item; when the stale
A resolves later, the code overwrites B's results with A's, so the
stale-response law of the specification is violated by the code. -/
theorem C2_stale_response_overwrites :
    staleS2.filteredUsers = [userB] ∧ staleS2.searchResults = [userB] ∧
    staleS3.filteredUsers = [userA] ∧ staleS3.searchResults = [userA] ∧
    userA ≠ userB := by decide

/-- Claim C5: a failed page load stores the message in the error state
and leaves the accumulated listing, the exhausted flag and the current
page unchanged; a subsequent retry clears the error and issues page 1,
whatever the current page is. -/
theorem C5_failure_preserves_state_and_retry_restarts
    (s : AppState) (n : Nat) (msg : String) :
    (fetchResolve s n (.fail msg)).error = some msg ∧
    (fetchResolve s n (.fail msg)).users = s.users ∧
    (fetchResolve s n (.fail msg)).hasMore = s.hasMore ∧
    (fetchResolve s n (.fail msg)).page = s.page ∧
    (retryFetch (fetchResolve s n (.fail msg))).1.error = none ∧
    (retryFetch (fetchResolve s n (.fail msg))).2 = [1] := by
  simp [fetchResolve, retryFetch, fetchStart]

/-- Claim C8: a failed search stores the message, drops the search
result set, and changes the display source only in the dead branch
where the captured query is blank (in which case it falls back to the
accumulated listing); for every actually issued search the captured
query is non-blank, so the previous display — the last successful
search results, if any — remains visible. -/
theorem C8_search_failure_keeps_display (s : AppState) (q msg : String) :
    (searchResolve s q (.fail msg)).error = some msg ∧
    (searchResolve s q (.fail msg)).searchResults = [] ∧
    (searchResolve s q (.fail msg)).isSearching = false ∧
    (searchResolve s q (.fail msg)).users = s.users ∧
    (searchResolve s q (.fail msg)).filteredUsers
      = (if isBlank q then s.users else s.filteredUsers) := by
  by_cases hq : isBlank q <;> simp [searchResolve, hq]

/-- Claim C9: a successful search wholly replaces the search result
set with the response's items (an absent items field meaning no
results), makes the display source the search result set, and leaves
the accumulated listing and pagination state untouched; in the
scenario, searching for one user displays exactly that item while the
listing keeps its one previously loaded user. -/
theorem C9_search_success_replaces_results
    (s : AppState) (q : String) (items : Option (List User)) :
    (searchResolve s q (.ok items)).searchResults = items.getD [] ∧
    (searchResolve s q (.ok items)).filteredUsers = items.getD [] ∧
    (searchResolve s q (.ok items)).users = s.users ∧
    (searchResolve s q (.ok items)).page = s.page ∧
    (searchResolve s q (.ok items)).hasMore = s.hasMore ∧
    (searchResolve s q (.ok items)).error = s.error ∧
    (searchResolve s q (.ok items)).isSearching = false ∧
    (searchResolve (searchStart exampleLoadedState) "torvalds"
        (.ok (some [torvaldsUser]))).filteredUsers = [torvaldsUser] ∧
    (searchResolve (searchStart exampleLoadedState) "torvalds"
        (.ok (some [torvaldsUser]))).users = [mkUser 1] := by
  refine ⟨?_, ?_, ?_, ?_, ?_, ?_, ?_, by decide, by decide⟩ <;>
    simp [searchResolve, getSearchItems]

/-- Search starts and resolutions never touch the accumulated
listing. -/
theorem applySearchOp_users (s : AppState) (op : SearchOp) :
    (applySearchOp s op).users = s.users := by
  cases op with
  | start => rfl
  | resolve q out =>
      cases out with
      | ok items => rfl
      | fail msg => by_cases hb : isBlank q <;> simp [applySearchOp, searchResolve, hb]

theorem applySearchOps_users (ops : List SearchOp) :
    ∀ s : AppState, (applySearchOps s ops).users = s.users := by
  induction ops with
  | nil => intro s; rfl
  | cons op rest ih =>
      intro s
      show (applySearchOps (applySearchOp s op) rest).users = s.users
      rw [ih, applySearchOp_users]

/-- Claim C6: clearing the query to a blank value — through the
`searchUsers` entry or the `clearSearch` action — exits search mode,
issues no search request, drops the search result set, and restores
the accumulated listing as the display source, whatever intermediate
search activity happened in between. -/
theorem C6_clear_restores_listing (s : AppState) (ops : List SearchOp) (q : String)
    (hq : isBlank q = true) :
    (searchUsersCall (applySearchOps s ops) q).2 = [] ∧
    (searchUsersCall (applySearchOps s ops) q).1.isSearching = false ∧
    (searchUsersCall (applySearchOps s ops) q).1.searchResults = [] ∧
    (searchUsersCall (applySearchOps s ops) q).1.filteredUsers = s.users ∧
    (clearSearch (applySearchOps s ops)).isSearching = false ∧
    (clearSearch (applySearchOps s ops)).searchResults = [] ∧
    (clearSearch (applySearchOps s ops)).filteredUsers = s.users := by
  have hu := applySearchOps_users ops s
  refine ⟨?_, ?_, ?_, ?_, rfl, rfl, ?_⟩ <;>
    simp [searchUsersCall, clearSearch, hq, hu]

/-- Witness for C6: one intermediate successful search, then a blank
query restores the pre-search listing. -/
theorem C6_clear_restores_listing_witness :
    (searchUsersCall (applySearchOps exampleLoadedState
        [SearchOp.resolve "x" (SearchOutcome.ok (some [userA]))]) " ").1.filteredUsers
      = exampleLoadedState.users :=
  (C6_clear_restores_listing exampleLoadedState
    [SearchOp.resolve "x" (SearchOutcome.ok (some [userA]))] " " (by decide)).2.2.2.1

/-- A nonempty fold of timer replacements keeps exactly the last
scheduled query. -/
theorem foldl_scheduleEdit_eq (edits : List String) :
    ∀ init : Option String, edits ≠ [] →
      edits.foldl scheduleEdit init = edits.getLast? := by
  induction edits with
  | nil => intro init hne; exact absurd rfl hne
  | cons e es ih =>
      intro init _
      cases es with
      | nil => simp [List.foldl, scheduleEdit]
      | cons f fs =>
          rw [List.getLast?_cons_cons]
          exact ih (some e) (by simp)

theorem runBurst_eq_getLast (edits : List String) :
    runBurst edits = edits.getLast? := by
  cases edits with
  | nil => rfl
  | cons e es => exact foldl_scheduleEdit_eq (e :: es) none (by simp)

/-- Claim C7 (amended): within one debounce window each new edit
cancels and reschedules the pending timer, so the burst leaves only
the final query scheduled and issues at most one search request:
exactly one carrying the final query value when that value is
non-blank, and none when the final value is blank. -/
theorem C7_debounce_single_request (s : AppState) (edits : List String) (q : String)
    (hlast : edits.getLast? = some q) :
    runBurst edits = some q ∧
    burstRequests s edits = (if isBlank q then [] else [q]) ∧
    (burstRequests s edits).length ≤ 1 := by
  have hr : runBurst edits = some q := (runBurst_eq_getLast edits).trans hlast
  refine ⟨hr, ?_, ?_⟩ <;>
    by_cases hb : isBlank q <;>
      simp [burstRequests, hr, debounceBody, searchUsersCall, hb]

/-- Witness for C7 (amended): the burst of edits "tor", "torvalds"
issues exactly one request with the final value. -/
theorem C7_debounce_single_request_witness :
    burstRequests exampleLoadedState ["tor", "torvalds"] = ["torvalds"] :=
  ((C7_debounce_single_request exampleLoadedState ["tor", "torvalds"] "torvalds"
    (by decide)).2.1).trans (by decide)

/-- Counterexample to C7 as stated: a burst whose final edit is
whitespace-only issues zero search requests, not exactly one. -/
theorem C7_counterexample :
    burstRequests exampleLoadedState ["a", " "] = [] ∧
    (burstRequests exampleLoadedState ["a", " "]).length ≠ 1 := by decide

/-- No event ever turns the exhausted marker back off: once `hasMore`
is false it stays false. -/
theorem step_hasMore_false (s : AppState) (e : Event) (h : s.hasMore = false) :
    (step s e).state.hasMore = false := by
  cases e with
  | observerFire visible =>
      simp only [step, lastUserTrigger]
      split
      · exact h
      · split <;> simp [fetchStart, h]
  | retry => simpa [step, retryFetch, fetchStart] using h
  | initialLoad => simpa [step, fetchStart] using h
  | pageResolve n out =>
      cases out with
      | ok data =>
          by_cases hlen : data.length = 0
          · simp [step, fetchResolve, hlen]
          · by_cases hone : n = 1 <;> simp [step, fetchResolve, hlen, hone, h]
      | fail msg => simpa [step, fetchResolve] using h
  | setQuery q => simpa [step] using h
  | debounceTimer =>
      by_cases hb : isBlank s.searchQuery <;>
        simp [step, debounceBody, searchUsersCall, searchStart, hb, h]
  | searchResolveEv q out =>
      cases out with
      | ok items => simpa [step, searchResolve] using h
      | fail msg => by_cases hb : isBlank q <;> simp [step, searchResolve, hb, h]
  | clearSearchEv => simpa [step, clearSearch] using h

/-- Once the listing is exhausted, the only page-load requests any
event can still issue are page-1 requests (mount effect or retry). -/
theorem step_pageReqs_of_exhausted (s : AppState) (e : Event) (h : s.hasMore = false) :
    ∀ r ∈ (step s e).pageReqs, r = 1 := by
  cases e with
  | observerFire visible =>
      simp only [step, lastUserTrigger, h, Bool.and_false]
      split <;> simp
  | retry => simp [step, retryFetch]
  | initialLoad => simp [step]
  | pageResolve n out => simp [step]
  | setQuery q => simp [step]
  | debounceTimer => simp [step]
  | searchResolveEv q out => simp [step]
  | clearSearchEv => simp [step]

theorem issued_of_exhausted (es : List Event) :
    ∀ s : AppState, s.hasMore = false → ∀ r ∈ issuedPageReqs s es, r = 1 := by
  induction es with
  | nil => intro s _ r hr; simp [issuedPageReqs, runTrace] at hr
  | cons e rest ih =>
      intro s h r hr
      simp only [issuedPageReqs, runTrace, List.mem_append] at hr
      rcases hr with hr | hr
      · exact step_pageReqs_of_exhausted s e h r hr
      · exact ih (step s e).state (step_hasMore_false s e h) r hr

/-- Claim C3: a page-n load that succeeds with an empty result marks
the listing exhausted, and in every subsequent event trace of that
view instance no request for page n + 1 or any later page is issued
(only page-1 requests, from retry or the mount effect, remain
possible). -/
theorem C3_empty_page_exhausts (s : AppState) (n : Nat) (es : List Event)
    (hn : 1 ≤ n) :
    (fetchResolve s n (.ok [])).hasMore = false ∧
    ∀ r ∈ issuedPageReqs (fetchResolve s n (.ok [])) es, r < n + 1 := by
  have h1 : (fetchResolve s n (.ok [])).hasMore = false := by simp [fetchResolve]
  refine ⟨h1, fun r hr => ?_⟩
  have := issued_of_exhausted es _ h1 r hr
  omega

/-- Witness for C3 at page 1 with a trace containing a trigger fire
and a retry. -/
theorem C3_empty_page_exhausts_witness :
    (fetchResolve initialState 1 (.ok [])).hasMore = false :=
  (C3_empty_page_exhausts initialState 1
    [Event.observerFire true, Event.retry] (by decide)).1

/-- Claim C4 (amended): the viewport trigger issues a page-load
request only when the watched item is visible, the listing is not
exhausted, the query is blank (no active search), and the loading flag
is clear — and the issued request is for the next page; the loading
flag, however, is raised only while a page-1 load is outstanding, so
it does not prevent a second page-load request while a later page is
in flight. -/
theorem C4_trigger_guard (s : AppState) (visible : Bool)
    (h : (step s (.observerFire visible)).pageReqs ≠ []) :
    visible = true ∧ s.hasMore = true ∧ s.loading = false ∧
    isBlank s.searchQuery = true ∧
    (step s (.observerFire visible)).pageReqs = [s.page + 1] := by
  simp only [step, lastUserTrigger] at h ⊢
  by_cases h1 : (s.loading || !(isBlank s.searchQuery)) = true
  · simp [h1] at h
  · by_cases h2 : (visible && s.hasMore) = true
    · simp only [Bool.or_eq_true, Bool.not_eq_true'] at h1
      push_neg at h1
      simp only [Bool.and_eq_true] at h2
      have hb : isBlank s.searchQuery = true := by
        cases hq : isBlank s.searchQuery
        · exact absurd hq h1.2
        · rfl
      have hl : s.loading = false := by
        cases hq : s.loading
        · rfl
        · exact absurd hq h1.1
      simp [hl, hb, h2.1, h2.2]
    · simp [h1, h2] at h

/-- Witness for C4 (amended) right after a successful initial load. -/
theorem C4_trigger_guard_witness :
    (step exampleLoadedState (Event.observerFire true)).pageReqs
      = [exampleLoadedState.page + 1] :=
  (C4_trigger_guard exampleLoadedState true (by decide)).2.2.2.2

/-- Counterexample to C4 as stated: after a successful page-1 load the
loading flag is clear (it is raised only for page 1), so two
consecutive trigger fires both pass the guard and each issue a page-2
request, leaving two page-load requests logically in flight at once. -/
theorem C4_counterexample :
    inFlightPageLoads initialState
      [Event.initialLoad, Event.pageResolve 1 (FetchOutcome.ok [mkUser 1]),
       Event.observerFire true, Event.observerFire true] = 2 ∧
    ¬ inFlightPageLoads initialState
      [Event.initialLoad, Event.pageResolve 1 (FetchOutcome.ok [mkUser 1]),
       Event.observerFire true, Event.observerFire true] ≤ 1 := by decide

/-- The initialized flag stays off across every event that is not a
non-empty page-1 success. -/
theorem step_isInitialized_false (s : AppState) (e : Event)
    (h : s.isInitialized = false) (he : isPage1NonemptySuccess e = false) :
    (step s e).state.isInitialized = false := by
  cases e with
  | observerFire visible =>
      simp only [step, lastUserTrigger]
      split
      · exact h
      · split <;> simp [fetchStart, h]
  | retry => simpa [step, retryFetch, fetchStart] using h
  | initialLoad => simpa [step, fetchStart] using h
  | pageResolve n out =>
      cases out with
      | ok data =>
          by_cases hlen : data.length = 0
          · simp [step, fetchResolve, hlen, h]
          · by_cases hone : n = 1
            · subst hone
              exfalso
              simp only [isPage1NonemptySuccess, Bool.not_eq_false'] at he
              exact hlen (by simp [List.isEmpty_iff.mp he])
            · simp [step, fetchResolve, hlen, hone, h]
      | fail msg => simpa [step, fetchResolve] using h
  | setQuery q => simpa [step] using h
  | debounceTimer =>
      by_cases hb : isBlank s.searchQuery <;>
        simp [step, debounceBody, searchUsersCall, searchStart, hb, h]
  | searchResolveEv q out =>
      cases out with
      | ok items => simpa [step, searchResolve] using h
      | fail msg => by_cases hb : isBlank q <;> simp [step, searchResolve, hb, h]
  | clearSearchEv => simpa [step, clearSearch] using h

theorem trace_isInitialized_false (es : List Event) :
    ∀ s : AppState, s.isInitialized = false →
      (∀ e ∈ es, isPage1NonemptySuccess e = false) →
      (finalState s es).isInitialized = false := by
  induction es with
  | nil => intro s h _; simpa [finalState, runTrace] using h
  | cons e rest ih =>
      intro s h hes
      have h1 := step_isInitialized_false s e h (hes e (List.mem_cons_self _ _))
      have h2 := ih (step s e).state h1 (fun x hx => hes x (List.mem_cons_of_mem _ hx))
      simpa [finalState, runTrace] using h2

/-- Claim C10: the initialized flag is set only by a page-1 load that
succeeds with a non-empty result; whenever the flag is unset the
render function returns the full-screen loading view (so neither the
error block with its retry button nor the exhausted notice can
appear); hence after page-1 failures or empty page-1 results the view
remains on the loading screen as long as no page-1 load succeeds with
a non-empty result. -/
theorem C10_loading_until_initialized (s : AppState) (es : List Event)
    (h : s.isInitialized = false)
    (hes : ∀ e ∈ es, isPage1NonemptySuccess e = false) :
    (∀ (t : AppState) (e : Event), (step t e).state.isInitialized = true →
      t.isInitialized = true ∨ isPage1NonemptySuccess e = true) ∧
    (∀ t : AppState, t.isInitialized = false → render t = View.loadingScreen) ∧
    render (finalState s es) = View.loadingScreen := by
  have honly : ∀ (t : AppState) (e : Event), (step t e).state.isInitialized = true →
      t.isInitialized = true ∨ isPage1NonemptySuccess e = true := by
    intro t e hstep
    by_contra hc
    push_neg at hc
    have h1 : t.isInitialized = false := by
      cases hq : t.isInitialized
      · rfl
      · exact absurd hq hc.1
    have h2 : isPage1NonemptySuccess e = false := by
      cases hq : isPage1NonemptySuccess e
      · rfl
      · exact absurd hq hc.2
    have := step_isInitialized_false t e h1 h2
    rw [this] at hstep
    exact Bool.false_ne_true hstep
  have hrender : ∀ t : AppState, t.isInitialized = false →
      render t = View.loadingScreen := by
    intro t ht
    simp [render, ht]
  exact ⟨honly, hrender, hrender _ (trace_isInitialized_false es s h hes)⟩

/-- Witness for C10: after a failed initial page-1 load and a retry,
the view still renders the loading screen. -/
theorem C10_loading_until_initialized_witness :
    render (finalState
      (fetchResolve (fetchStart initialState 1) 1
        (FetchOutcome.fail "HTTP error! status: 403"))
      [Event.retry]) = View.loadingScreen :=
  (C10_loading_until_initialized
    (fetchResolve (fetchStart initialState 1) 1
      (FetchOutcome.fail "HTTP error! status: 403"))
    [Event.retry] (by decide) (by decide)).2.2
